import Mathlib

/-!
Verification of the computer-control tool of `mac_computer_use`
(`tools/computer.py` and its callers), as a shallow embedding in Lean.

Python strings are Lean `String`s (a `String` is a list of code points here,
matching Python's `str`).  The Python string primitives used by the source
(`str.split` on a one-character separator, `str.strip`, `str.lower`,
`str.replace`, membership of a character) are given direct structural
definitions on `String.data` below, with the semantics of the CPython
operations they translate.
-/

namespace MacComputerUse

/-- Python `sep in s` for a one-character separator `sep`. -/
def pyContains (s : String) (c : Char) : Bool :=
  s.data.contains c

/-- Python `s.split(sep)` for a one-character separator, on code points:
the maximal pieces of `s` between occurrences of `sep`; adjacent or
leading/trailing separators yield empty pieces. -/
def pySplitChar (sep : Char) : List Char → List (List Char)
  | [] => [[]]
  | c :: rest =>
    if c = sep then [] :: pySplitChar sep rest
    else
      match pySplitChar sep rest with
      | [] => [[c]]
      | h :: t => (c :: h) :: t

/-- Python `s.split(sep)` for a one-character separator, on strings. -/
def pySplit (sep : Char) (s : String) : List String :=
  (pySplitChar sep s.data).map String.mk

/-- Python `s.strip()`: remove leading and trailing whitespace. -/
def pyStripChars (s : List Char) : List Char :=
  ((s.dropWhile Char.isWhitespace).reverse.dropWhile Char.isWhitespace).reverse

/-- Python `s.strip()` on strings. -/
def pyStrip (s : String) : String :=
  String.mk (pyStripChars s.data)

/-- Python `s.lower()` (the source only ever lowercases ASCII key names). -/
def pyLower (s : String) : String :=
  String.mk (s.data.map Char.toLower)

/-- Python `s.replace(old, new)` for a one-character `old`. -/
def pyReplaceChar (pat : Char) (rep : List Char) : List Char → List Char
  | [] => []
  | c :: rest =>
    if c = pat then rep ++ pyReplaceChar pat rep rest
    else c :: pyReplaceChar pat rep rest

/-- Characters `shlex.quote` leaves unquoted: ASCII word characters and
the punctuation at-sign, percent, plus, equals, colon, comma, dot, slash,
hyphen (the complement of the `_find_unsafe` regex in ASCII mode). -/
def shlexSafe (c : Char) : Bool :=
  c.isAlpha || c.isDigit || c = '_' || c = '@' || c = '%' || c = '+' ||
    c = '=' || c = ':' || c = ',' || c = '.' || c = '/' || c = '-'

/-- Python `shlex.quote(s)`: return `s` unchanged when every character is
safe, otherwise wrap in single quotes, escaping embedded single quotes. -/
def shlex_quote (s : String) : String :=
  if s = "" then "\x27\x27"
  else if s.data.all shlexSafe then s
  else "\x27" ++ String.mk (pyReplaceChar '\x27' "\x27\"\x27\"\x27".data s.data) ++ "\x27"

/-- Parse a decimal digit string to a natural number (empty is a failure). -/
def digitsToNat (ds : List Char) : Option ℕ :=
  if ds = [] then none
  else if ds.all Char.isDigit then
    some (ds.foldl (fun a c => a * 10 + (c.toNat - 48)) 0)
  else none

/-- Python `int(s)` for the decimal strings the tool can meet (optional
sign and spaces around the digits); `none` models the `ValueError`. -/
def pyInt (s : List Char) : Option ℤ :=
  match pyStripChars s with
  | '-' :: rest => (digitsToNat rest).map (fun n => -(n : ℤ))
  | '+' :: rest => (digitsToNat rest).map (fun n => (n : ℤ))
  | t => (digitsToNat t).map (fun n => (n : ℤ))

/-- Python `round`: round half to even (banker's rounding), on rationals.
The Python source applies `round` to float quotients; the model computes
the same quantities in exact rational arithmetic. -/
def pyRound (q : ℚ) : ℤ :=
  if q - Int.floor q < 1/2 then Int.floor q
  else if 1/2 < q - Int.floor q then Int.floor q + 1
  else if Int.floor q % 2 = 0 then Int.floor q else Int.floor q + 1

/-- Modelled from the spec: `ToolError` (`tools/base.py` is not in the
sources) is the `InvalidArgument`-style structured error the dispatcher
raises; it carries a message. -/
structure ToolError where
  message : String
deriving DecidableEq, Repr

/-- Modelled from the spec: `ToolResult` (`tools/base.py` is not in the
sources) is the result envelope `{output, error, image}`; `replace` of the
dataclass is modelled by structure update. -/
structure ToolResult where
  output : Option String
  error : Option String
  base64_image : Option String
deriving DecidableEq, Repr

def TYPING_DELAY_MS : ℕ := 12
def TYPING_GROUP_SIZE : ℕ := 50

inductive Action
  | key
  | type
  | mouse_move
  | left_click
  | left_click_drag
  | right_click
  | middle_click
  | double_click
  | triple_click
  | screenshot
  | cursor_position
  | scroll
  | left_mouse_down
  | left_mouse_up
  | hold_key
  | wait
deriving DecidableEq, Repr

/-- The Python string value of each `Action` literal. -/
def actionName : Action → String
  | .key => "key"
  | .type => "type"
  | .mouse_move => "mouse_move"
  | .left_click => "left_click"
  | .left_click_drag => "left_click_drag"
  | .right_click => "right_click"
  | .middle_click => "middle_click"
  | .double_click => "double_click"
  | .triple_click => "triple_click"
  | .screenshot => "screenshot"
  | .cursor_position => "cursor_position"
  | .scroll => "scroll"
  | .left_mouse_down => "left_mouse_down"
  | .left_mouse_up => "left_mouse_up"
  | .hold_key => "hold_key"
  | .wait => "wait"

structure Resolution where
  width : ℕ
  height : ℕ
deriving DecidableEq, Repr

/-- `MAX_SCALING_TARGETS` of the source. -/
def MAX_SCALING_TARGETS : List (String × Resolution) :=
  [("XGA", ⟨1024, 768⟩), ("WXGA", ⟨1280, 800⟩), ("FWXGA", ⟨1366, 768⟩)]

/-- `SCALE_DESTINATION = MAX_SCALING_TARGETS["FWXGA"]`. -/
def SCALE_DESTINATION : Resolution := ⟨1366, 768⟩

inductive ScalingSource
  | COMPUTER
  | API
deriving DecidableEq, Repr

/-- The mutable attributes of a `ComputerTool` instance: the real screen
resolution probed at startup and the class constant `_scaling_enabled`
(which the source fixes to `True`). -/
structure ComputerTool where
  width : ℕ
  height : ℕ
  scaling_enabled : Bool
deriving DecidableEq, Repr

/-- `ComputerTool.scale_coordinates`: scale between the real resolution and
`SCALE_DESTINATION`.  `API` scales a virtual coordinate up to the real
screen after a bounds check; `COMPUTER` scales a real coordinate down.
Python's float quotients are modelled as exact rationals. -/
def scale_coordinates (self : ComputerTool) (source : ScalingSource)
    (x y : ℤ) : Except ToolError (ℤ × ℤ) :=
  if self.scaling_enabled = false then Except.ok (x, y)
  else
    let x_scaling_factor : ℚ := (SCALE_DESTINATION.width : ℚ) / (self.width : ℚ)
    let y_scaling_factor : ℚ := (SCALE_DESTINATION.height : ℚ) / (self.height : ℚ)
    match source with
    | ScalingSource.API =>
      if (SCALE_DESTINATION.width : ℤ) < x ∨ (SCALE_DESTINATION.height : ℤ) < y then
        Except.error ⟨"Coordinates " ++ toString x ++ ", " ++ toString y ++
          " are out of bounds for " ++ toString SCALE_DESTINATION.width ++ "x" ++
          toString SCALE_DESTINATION.height⟩
      else
        Except.ok (pyRound ((x : ℚ) / x_scaling_factor),
                   pyRound ((y : ℚ) / y_scaling_factor))
    | ScalingSource.COMPUTER =>
      Except.ok (pyRound ((x : ℚ) * x_scaling_factor),
                 pyRound ((y : ℚ) * y_scaling_factor))

/-- `chunks(s, chunk_size)` on code-point lists:
`[s[i : i + chunk_size] for i in range(0, len(s), chunk_size)]`.
`range(0, L, k)` is `List.range' 0 ⌈L/k⌉ k`, and the Python slice
`s[i : i + k]` is `(s.drop i).take k`. -/
def chunksList (s : List Char) (chunk_size : ℕ) : List (List Char) :=
  (List.range' 0 ((s.length + chunk_size - 1) / chunk_size) chunk_size).map
    (fun i => (s.drop i).take chunk_size)

/-- `chunks(s, chunk_size)` of the source, on strings. -/
def chunks (s : String) (chunk_size : ℕ) : List String :=
  (chunksList s.data chunk_size).map String.mk

/-- A Python value that can occur inside a `coordinate` argument or as a
keyword argument: an `int`, a `float`, or a string.  (Used to model the
`isinstance` checks of the dispatcher.) -/
inductive PyObj
  | int (n : ℤ)
  | float (q : ℚ)
  | str (s : String)
deriving DecidableEq, Repr

/-- Python `isinstance(i, int) and i >= 0` of the coordinate validation. -/
def PyObj.isNonNegInt : PyObj → Bool
  | .int n => decide (0 ≤ n)
  | _ => false

/-- `isinstance(duration, (int, float))` of the `wait` branch. -/
def PyObj.isNumber : PyObj → Bool
  | .int _ => true
  | .float _ => true
  | .str _ => false

/-- The numeric value of an `int` or `float` (0 for a string, which the
dispatcher never reads as a number). -/
def PyObj.toRat : PyObj → ℚ
  | .int n => (n : ℚ)
  | .float q => q
  | .str _ => 0

/-- The integer value of a validated coordinate component. -/
def PyObj.asInt : PyObj → ℤ
  | .int n => n
  | .float q => Int.floor q
  | .str _ => 0

/-- Python `str(v)` / `repr(v)` as interpolated into messages.  Integers
are exact; a whole-valued float prints with a trailing `.0` as in CPython;
other floats are abstracted by the rational's own notation (no claim
inspects them). -/
def PyObj.pyStr : PyObj → String
  | .int n => toString n
  | .float q => if q.den = 1 then toString q.num ++ ".0" else toString q
  | .str s => "\x27" ++ s ++ "\x27"

/-- A supplied `coordinate` argument: a Python list or tuple of values.
The parameter is annotated `tuple[int, int] | None` in the source, but the
runtime check is `isinstance(coordinate, list)`, so the distinction is
modelled. -/
inductive PyCoord
  | list (xs : List PyObj)
  | tuple (xs : List PyObj)
deriving DecidableEq, Repr

def PyCoord.elems : PyCoord → List PyObj
  | .list xs => xs
  | .tuple xs => xs

def PyCoord.isList : PyCoord → Bool
  | .list _ => true
  | .tuple _ => false

/-- Python `repr` of a list/tuple of values, as interpolated into the
`ToolError` messages (a one-element tuple prints a trailing comma). -/
def PyCoord.pyRepr : PyCoord → String
  | .list xs => "[" ++ String.intercalate ", " (xs.map PyObj.pyStr) ++ "]"
  | .tuple [x] => "(" ++ x.pyStr ++ ",)"
  | .tuple xs => "(" ++ String.intercalate ", " (xs.map PyObj.pyStr) ++ ")"

/-- The `**kwargs` the dispatcher reads: `scroll_direction`,
`scroll_amount` and `duration`, each possibly absent. -/
structure Kwargs where
  scroll_direction : Option String
  scroll_amount : Option ℤ
  duration : Option PyObj
deriving DecidableEq, Repr

/-- Modelled from the spec: the external world the tool calls into.
`run` is the process-execution facility of `tools/run.py` (not in the
sources): for a command line it yields the captured `(stdout, stderr)`.
`fileContents` tells whether the OS capture facility produced the
screenshot file at a path, and if so its base64-encoded bytes.
`uuid_hex` is the hex of the `uuid4()` drawn for the screenshot name. -/
structure Env where
  run : String → String × String
  fileContents : String → Option String
  uuid_hex : String

def OUTPUT_DIR : String := "/tmp/outputs"

/-- `output_dir / f"screenshot_{uuid4().hex}.png"`. -/
def screenshotPath (env : Env) : String :=
  OUTPUT_DIR ++ "/screenshot_" ++ env.uuid_hex ++ ".png"

/-- What a call to the dispatcher can produce: a `ToolResult`, a raised
`ToolError`, or an uncaught Python exception (`crash`, possible only in
the `cursor_position` output parsing). -/
inductive Outcome
  | ok (result : ToolResult)
  | err (e : ToolError)
  | crash
deriving DecidableEq, Repr

def Outcome.isErr : Outcome → Bool
  | .err _ => true
  | _ => false

/-- `ComputerTool.screenshot`: run the OS `screencapture`, downscale with
`sips` when scaling is enabled, then read the file — or raise a
`ToolError` carrying the captured stderr when the file does not exist.
The first component lists the executed command lines in order. -/
def ComputerTool.screenshot (self : ComputerTool) (env : Env) :
    List String × Except ToolError ToolResult :=
  let path := screenshotPath env
  let screenshot_cmd := "screencapture -x " ++ path
  let (stdout, stderr) := env.run screenshot_cmd
  let result : ToolResult := ⟨some stdout, some stderr, none⟩
  let events :=
    if self.scaling_enabled then
      [screenshot_cmd,
       "sips -z " ++ toString SCALE_DESTINATION.height ++ " " ++
         toString SCALE_DESTINATION.width ++ " " ++ path]
    else [screenshot_cmd]
  match env.fileContents path with
  | some data => (events, Except.ok ⟨result.output, result.error, some data⟩)
  | none => (events, Except.error ⟨"Failed to take screenshot: " ++ stderr⟩)

/-- `ComputerTool.shell`: run a command; when `take_screenshot` is set,
wait the settle delay (not modelled: no claim involves time) and attach a
screenshot, propagating its `ToolError` if it raises. -/
def ComputerTool.shell (self : ComputerTool) (env : Env) (command : String)
    (take_screenshot : Bool) : List String × Except ToolError ToolResult :=
  let (stdout, stderr) := env.run command
  if take_screenshot then
    match self.screenshot env with
    | (evs, Except.ok r) =>
      (command :: evs, Except.ok ⟨some stdout, some stderr, r.base64_image⟩)
    | (evs, Except.error e) => (command :: evs, Except.error e)
  else ([command], Except.ok ⟨some stdout, some stderr, none⟩)

/-- Convert a `shell`/`screenshot` result into a dispatcher outcome. -/
def shellOut : List String × Except ToolError ToolResult → List String × Outcome
  | (evs, Except.ok r) => (evs, Outcome.ok r)
  | (evs, Except.error e) => (evs, Outcome.err e)

/-- The `special_keys_map` dict of the `key` branch (all keys distinct, so
first-match lookup equals dict lookup). -/
def special_keys_map : List (String × String) :=
  [("Return", "return"), ("return", "return"), ("enter", "return"),
   ("space", "space"), ("Tab", "tab"), ("tab", "tab"),
   ("Left", "arrow-left"), ("left", "arrow-left"),
   ("Right", "arrow-right"), ("right", "arrow-right"),
   ("Up", "arrow-up"), ("up", "arrow-up"),
   ("Down", "arrow-down"), ("down", "arrow-down"),
   ("Escape", "esc"), ("escape", "esc"), ("esc", "esc"),
   ("delete", "delete"), ("backspace", "delete"),
   ("home", "home"), ("end", "end"),
   ("pageup", "page-up"), ("pagedown", "page-down"),
   ("f1", "f1"), ("f2", "f2"), ("f3", "f3"), ("f4", "f4"),
   ("f5", "f5"), ("f6", "f6"), ("f7", "f7"), ("f8", "f8"),
   ("f9", "f9"), ("f10", "f10"), ("f11", "f11"), ("f12", "f12")]

/-- The modifier-conversion loop of the `key` branch: a recognized
modifier token maps to its cliclick name, anything else is skipped. -/
def modMap (mod : String) : Option String :=
  if mod = "cmd" ∨ mod = "command" then some "cmd"
  else if mod = "ctrl" then some "ctrl"
  else if mod = "alt" then some "alt"
  else if mod = "shift" then some "shift"
  else none

/-- The cliclick command line the `key` branch builds from its `text`:
a `+`-separated combination is split into leading modifiers and a final
target key; a target found in `special_keys_map` becomes a key-press
(`kp:`), anything else is typed literally (`t:`); a nonempty modifier
list brackets the key action in `kd:`/`ku:`. -/
def keyCmd (text : String) : String :=
  if pyContains text '+' then
    let keys := pySplit '+' text
    let modifiers := keys.dropLast.map pyStrip
    let target_key := pyStrip (keys.getLastD "")
    let cliclick_modifiers := modifiers.filterMap modMap
    let key_action :=
      match special_keys_map.lookup (pyLower target_key) with
      | some key_code => "kp:" ++ key_code
      | none => "t:" ++ target_key
    if cliclick_modifiers ≠ [] then
      "cliclick " ++ "kd:" ++ String.intercalate "," cliclick_modifiers ++
        " " ++ key_action ++ " ku:" ++ String.intercalate "," cliclick_modifiers
    else "cliclick " ++ key_action
  else
    match special_keys_map.lookup (pyLower text) with
    | some key_code => "cliclick kp:" ++ key_code
    | none => "cliclick t:" ++ text

/-- The command a `type` chunk is sent with: the typing delay and the
shell-quoted chunk. -/
def typeChunkCmd (chunk : String) : String :=
  "cliclick w:" ++ toString TYPING_DELAY_MS ++ " t:" ++ shlex_quote chunk

/-- The `key_map` dict of the `hold_key` branch. -/
def hold_key_map : List (String × String) :=
  [("command", "cmd"), ("cmd", "cmd"), ("ctrl", "ctrl"),
   ("alt", "alt"), ("shift", "shift")]

/-- The `click_cmd` dict of the click branch. -/
def clickCmd : Action → String
  | .left_click => "c:."
  | .right_click => "rc:."
  | .middle_click => "mc:."
  | .double_click => "dc:."
  | .triple_click => "tc:."
  | .left_mouse_down => "md:."
  | .left_mouse_up => "mu:."
  | _ => ""

/-- The `cursor_position` output parse:
`x, y = map(int, result.output.strip().split(","))`; `none` models the
uncaught `ValueError`/unpack error. -/
def parsePos (s : String) : Option (ℤ × ℤ) :=
  match pySplitChar ',' (pyStripChars s.data) with
  | [a, b] =>
    match pyInt a, pyInt b with
    | some x, some y => some (x, y)
    | _, _ => none
  | _ => none

/-- Recognizer for the OS capture command among executed command lines:
those whose first 13 code points are `screencapture`. -/
def isScreencaptureCmd (e : String) : Bool :=
  decide (e.data.take 13 = "screencapture".data)

/-- `ComputerTool.__call__`: validate the request against the action
grammar, build the external command line(s), execute them and normalize
the result.  The first component lists the command lines passed to `run`,
in order; an `Outcome.err` is a raised `ToolError`.  (The
`isinstance(text, str)` check of the key/type branch always passes here
since `text` is typed; the `wait` branch's `asyncio.sleep` has no
observable effect in the model.) -/
def ComputerTool.call (self : ComputerTool) (env : Env) (action : Action)
    (text : Option String) (coordinate : Option PyCoord) (kwargs : Kwargs) :
    List String × Outcome :=
  match action with
  | Action.mouse_move | Action.left_click_drag =>
    match coordinate with
    | none => ([], Outcome.err ⟨"coordinate is required for " ++ actionName action⟩)
    | some c =>
      if text ≠ none then
        ([], Outcome.err ⟨"text is not accepted for " ++ actionName action⟩)
      else if c.isList = false ∨ c.elems.length ≠ 2 then
        ([], Outcome.err ⟨c.pyRepr ++ " must be a tuple of length 2"⟩)
      else if ¬ (c.elems.all PyObj.isNonNegInt = true) then
        ([], Outcome.err ⟨c.pyRepr ++ " must be a tuple of non-negative ints"⟩)
      else
        match scale_coordinates self ScalingSource.API
            ((c.elems.getD 0 (PyObj.int 0)).asInt)
            ((c.elems.getD 1 (PyObj.int 0)).asInt) with
        | Except.error e => ([], Outcome.err e)
        | Except.ok (x, y) =>
          if action = Action.mouse_move then
            shellOut (self.shell env
              ("cliclick m:" ++ toString x ++ "," ++ toString y) true)
          else
            shellOut (self.shell env
              ("cliclick dd:" ++ toString x ++ "," ++ toString y) true)
  | Action.key | Action.type =>
    match text with
    | none => ([], Outcome.err ⟨"text is required for " ++ actionName action⟩)
    | some t =>
      if coordinate ≠ none then
        ([], Outcome.err ⟨"coordinate is not accepted for " ++ actionName action⟩)
      else if action = Action.key then
        -- try/except: a ToolError raised below (only the screenshot can
        -- raise) is caught and returned as a ToolResult error string
        match self.shell env (keyCmd t) true with
        | (evs, Except.ok r) => (evs, Outcome.ok r)
        | (evs, Except.error e) => (evs, Outcome.ok ⟨none, some e.message, none⟩)
      else
        let cs := chunks t TYPING_GROUP_SIZE
        let results := cs.map (fun chunk => env.run (typeChunkCmd chunk))
        let events := cs.map typeChunkCmd
        match self.screenshot env with
        | (sevs, Except.ok r) =>
          (events ++ sevs, Outcome.ok
            ⟨some (String.join (results.map Prod.fst)),
             some (String.join (results.map Prod.snd)),
             r.base64_image⟩)
        | (sevs, Except.error e) => (events ++ sevs, Outcome.err e)
  | Action.left_click | Action.right_click | Action.double_click
  | Action.triple_click | Action.middle_click | Action.left_mouse_down
  | Action.left_mouse_up | Action.screenshot | Action.cursor_position =>
    if text ≠ none then
      ([], Outcome.err ⟨"text is not accepted for " ++ actionName action⟩)
    else if coordinate ≠ none then
      ([], Outcome.err ⟨"coordinate is not accepted for " ++ actionName action⟩)
    else if action = Action.screenshot then
      shellOut (self.screenshot env)
    else if action = Action.cursor_position then
      match self.shell env "cliclick p" false with
      | (evs, Except.error e) => (evs, Outcome.err e)
      | (evs, Except.ok result) =>
        match result.output with
        | some out =>
          if out ≠ "" then
            match parsePos out with
            | none => (evs, Outcome.crash)
            | some (px, py) =>
              match scale_coordinates self ScalingSource.COMPUTER px py with
              | Except.error e => (evs, Outcome.err e)
              | Except.ok (sx, sy) =>
                (evs, Outcome.ok ⟨some ("X=" ++ toString sx ++ ",Y=" ++ toString sy),
                  result.error, result.base64_image⟩)
          else (evs, Outcome.ok result)
        | none => (evs, Outcome.ok result)
    else
      shellOut (self.shell env ("cliclick " ++ clickCmd action) true)
  | Action.scroll =>
    match coordinate with
    | none => ([], Outcome.err ⟨"coordinate is required for scroll action"⟩)
    | some c =>
      if c.isList = false ∨ c.elems.length ≠ 2 then
        ([], Outcome.err ⟨c.pyRepr ++ " must be a tuple of length 2"⟩)
      else if ¬ (c.elems.all PyObj.isNonNegInt = true) then
        ([], Outcome.err ⟨c.pyRepr ++ " must be a tuple of non-negative ints"⟩)
      else
        match scale_coordinates self ScalingSource.API
            ((c.elems.getD 0 (PyObj.int 0)).asInt)
            ((c.elems.getD 1 (PyObj.int 0)).asInt) with
        | Except.error e => ([], Outcome.err e)
        | Except.ok (x, y) =>
          let scroll_direction := kwargs.scroll_direction.getD "down"
          let scroll_amount := kwargs.scroll_amount.getD 5
          let direction_multiplier : ℤ :=
            if scroll_direction = "down" then -1
            else if scroll_direction = "up" then 1
            else if scroll_direction = "left" then 1
            else if scroll_direction = "right" then -1
            else -1
          let scroll_value := scroll_amount * direction_multiplier
          if scroll_direction = "up" ∨ scroll_direction = "down" then
            shellOut (self.shell env
              ("cliclick m:" ++ toString x ++ "," ++ toString y ++
               " w:" ++ toString scroll_value) true)
          else
            shellOut (self.shell env
              ("cliclick m:" ++ toString x ++ "," ++ toString y ++
               " kd:shift w:" ++ toString scroll_value ++ " ku:shift") true)
  | Action.hold_key =>
    match text with
    | none => ([], Outcome.err ⟨"text is required for hold_key action"⟩)
    | some t =>
      let key :=
        match hold_key_map.lookup (pyLower t) with
        | some k => k
        | none => pyLower t
      shellOut (self.shell env ("cliclick kd:" ++ key) true)
  | Action.wait =>
    let duration := kwargs.duration.getD (PyObj.float 1)
    if duration.isNumber = false ∨ duration.toRat < 0 then
      ([], Outcome.err ⟨"duration must be a non-negative number"⟩)
    else
      match self.screenshot env with
      | (evs, Except.ok r) =>
        (evs, Outcome.ok ⟨some ("Waited for " ++ duration.pyStr ++ " seconds"),
          none, r.base64_image⟩)
      | (evs, Except.error e) => (evs, Outcome.err e)

theorem chunksList_nil (k : ℕ) (hk : 0 < k) : chunksList [] k = [] := by
  unfold chunksList
  simp only [List.length_nil]
  rw [Nat.div_eq_of_lt (by omega)]
  rfl

theorem range'_map_shift {α : Type} (f : ℕ → α) (k : ℕ) :
    ∀ (n a : ℕ), (List.range' (a + k) n k).map f
      = (List.range' a n k).map (fun i => f (i + k)) := by
  intro n
  induction n with
  | zero => intro a; rfl
  | succ n ih =>
    intro a
    rw [List.range'_succ, List.range'_succ, List.map_cons, List.map_cons, ih (a + k)]

theorem chunksList_cons (k : ℕ) (hk : 0 < k) (s : List Char) (hs : s ≠ []) :
    chunksList s k = s.take k :: chunksList (s.drop k) k := by
  have hL : 1 ≤ s.length := List.length_pos.mpr hs
  have key : (s.length + k - 1)/k = ((s.drop k).length + k - 1)/k + 1 := by
    rw [List.length_drop]
    rcases le_or_lt s.length k with h | h
    · have e1 : s.length + k - 1 = (s.length - 1) + k := by omega
      have e2 : s.length - k + k - 1 = k - 1 := by omega
      rw [e1, e2, Nat.add_div_right _ hk, Nat.div_eq_of_lt (by omega),
          Nat.div_eq_of_lt (by omega)]
    · have e1 : s.length + k - 1 = ((s.length - k) + k - 1) + k := by omega
      rw [e1, Nat.add_div_right _ hk]
  unfold chunksList
  rw [key, List.range'_succ, List.map_cons]
  congr 1
  rw [range'_map_shift]
  apply List.map_congr_left
  intro i _
  rw [Nat.add_comm i k, ← List.drop_drop]

theorem chunksList_flatten_aux (k : ℕ) (hk : 0 < k) :
    ∀ (n : ℕ) (s : List Char), s.length ≤ n → (chunksList s k).flatten = s := by
  intro n
  induction n with
  | zero =>
    intro s hs
    have h : s = [] := List.eq_nil_of_length_eq_zero (by omega)
    subst h; rw [chunksList_nil k hk]; rfl
  | succ n ih =>
    intro s hs
    rcases eq_or_ne s [] with rfl | hne
    · rw [chunksList_nil k hk]; rfl
    · have h1 : 1 ≤ s.length := List.length_pos.mpr hne
      rw [chunksList_cons k hk s hne, List.flatten_cons,
          ih (s.drop k) (by rw [List.length_drop]; omega),
          List.take_append_drop]

theorem chunksList_flatten (k : ℕ) (hk : 0 < k) (s : List Char) :
    (chunksList s k).flatten = s :=
  chunksList_flatten_aux k hk s.length s le_rfl

theorem chunksList_ne_nil (k : ℕ) (hk : 0 < k) (s : List Char) (hs : s ≠ []) :
    chunksList s k ≠ [] := by
  rw [chunksList_cons k hk s hs]
  exact List.cons_ne_nil _ _

theorem chunksList_eq_nil_iff (k : ℕ) (hk : 0 < k) (s : List Char) :
    chunksList s k = [] ↔ s = [] := by
  constructor
  · intro h
    by_contra hne
    exact chunksList_ne_nil k hk s hne h
  · intro h; subst h; exact chunksList_nil k hk

theorem chunksList_dropLast_aux (k : ℕ) (hk : 0 < k) :
    ∀ (n : ℕ) (s : List Char), s.length ≤ n →
      ∀ c ∈ (chunksList s k).dropLast, c.length = k := by
  intro n
  induction n with
  | zero =>
    intro s hs c hc
    have h : s = [] := List.eq_nil_of_length_eq_zero (by omega)
    subst h; rw [chunksList_nil k hk] at hc; simp at hc
  | succ n ih =>
    intro s hs c hc
    rcases eq_or_ne s [] with rfl | hne
    · rw [chunksList_nil k hk] at hc; simp at hc
    · have h1 : 1 ≤ s.length := List.length_pos.mpr hne
      rw [chunksList_cons k hk s hne] at hc
      rcases hr : chunksList (s.drop k) k with _ | ⟨r, rs⟩
      · rw [hr] at hc; simp at hc
      · rw [hr, List.dropLast_cons₂] at hc
        rcases List.mem_cons.mp hc with rfl | hc2
        · have hdrop : s.drop k ≠ [] := by
            intro hd
            rw [(chunksList_eq_nil_iff k hk (s.drop k)).mpr hd] at hr
            exact List.cons_ne_nil _ _ hr.symm
          have hk2 : k < s.length := by
            by_contra hle
            exact hdrop (List.drop_eq_nil_of_le (by omega))
          rw [List.length_take]
          omega
        · exact ih (s.drop k) (by rw [List.length_drop]; omega) c (hr ▸ hc2)

theorem chunksList_dropLast (k : ℕ) (hk : 0 < k) (s : List Char) :
    ∀ c ∈ (chunksList s k).dropLast, c.length = k :=
  chunksList_dropLast_aux k hk s.length s le_rfl

theorem chunksList_mem_aux (k : ℕ) (hk : 0 < k) :
    ∀ (n : ℕ) (s : List Char), s.length ≤ n →
      ∀ c ∈ chunksList s k, c ≠ [] := by
  intro n
  induction n with
  | zero =>
    intro s hs c hc
    have h : s = [] := List.eq_nil_of_length_eq_zero (by omega)
    subst h; rw [chunksList_nil k hk] at hc; simp at hc
  | succ n ih =>
    intro s hs c hc
    rcases eq_or_ne s [] with rfl | hne
    · rw [chunksList_nil k hk] at hc; simp at hc
    · have h1 : 1 ≤ s.length := List.length_pos.mpr hne
      rw [chunksList_cons k hk s hne] at hc
      rcases List.mem_cons.mp hc with rfl | hc2
      · simp only [ne_eq, List.take_eq_nil_iff]
        push_neg
        exact ⟨by omega, hne⟩
      · exact ih (s.drop k) (by rw [List.length_drop]; omega) c hc2

theorem chunksList_mem_ne_nil (k : ℕ) (hk : 0 < k) (s : List Char) :
    ∀ c ∈ chunksList s k, c ≠ [] :=
  chunksList_mem_aux k hk s.length s le_rfl

theorem string_foldl_append_mk (L : List (List Char)) :
    ∀ acc : List Char,
      List.foldl (· ++ ·) (String.mk acc) (L.map String.mk)
        = String.mk (acc ++ L.flatten) := by
  induction L with
  | nil => intro acc; simp
  | cons a L ih =>
    intro acc
    rw [List.map_cons, List.foldl_cons]
    have h : String.mk acc ++ String.mk a = String.mk (acc ++ a) := rfl
    rw [h, ih (acc ++ a), List.flatten_cons, List.append_assoc]

theorem string_join_mk (L : List (List Char)) :
    String.join (L.map String.mk) = String.mk L.flatten :=
  string_foldl_append_mk L []

/-- C10: for every string `s` and every `chunk_size > 0`, concatenating
`chunks s chunk_size` in order yields exactly `s`, every chunk except
possibly the last has length exactly `chunk_size`, and every chunk — in
particular the last, whenever `s` is nonempty — is nonempty, so the type
action never drops or duplicates characters across chunk boundaries. -/
theorem C10_chunks_partition (s : String) (k : ℕ) (hk : 0 < k) :
    String.join (chunks s k) = s ∧
    (∀ c ∈ (chunks s k).dropLast, c.length = k) ∧
    (∀ c ∈ chunks s k, c ≠ "") ∧
    (s ≠ "" → chunks s k ≠ []) := by
  refine ⟨?_, ?_, ?_, ?_⟩
  · rw [chunks, string_join_mk, chunksList_flatten k hk]
  · intro c hc
    rw [chunks, ← List.map_dropLast] at hc
    rcases List.mem_map.mp hc with ⟨l, hl, rfl⟩
    exact chunksList_dropLast k hk s.data l hl
  · intro c hc
    rw [chunks] at hc
    rcases List.mem_map.mp hc with ⟨l, hl, rfl⟩
    have hne := chunksList_mem_ne_nil k hk s.data l hl
    intro h
    exact hne (congrArg String.data h)
  · intro hs h
    have hd : s.data ≠ [] := fun h2 => hs (congrArg String.mk h2)
    have hne := chunksList_ne_nil k hk s.data hd
    rw [chunks] at h
    exact hne (List.map_eq_nil_iff.mp h)

/-- Witness for C10 at the concrete input `s = "abc"`, `chunk_size = 2`. -/
theorem C10_chunks_partition_witness :
    0 < 2 ∧
    (String.join (chunks "abc" 2) = "abc" ∧
     (∀ c ∈ (chunks "abc" 2).dropLast, c.length = 2) ∧
     (∀ c ∈ chunks "abc" 2, c ≠ "") ∧
     ("abc" ≠ "" → chunks "abc" 2 ≠ [])) :=
  ⟨by decide, C10_chunks_partition "abc" 2 (by decide)⟩

theorem isScreencap_cap (p : String) :
    isScreencaptureCmd ("screencapture -x " ++ p) = true := by
  unfold isScreencaptureCmd
  rw [String.data_append, List.take_append_of_le_length (by decide)]
  decide

theorem sips_prefix_eq : "sips -z " ++ toString SCALE_DESTINATION.height ++ " " ++
    toString SCALE_DESTINATION.width ++ " " = "sips -z 768 1366 " := by decide

theorem isScreencap_sips (p : String) :
    isScreencaptureCmd ("sips -z " ++ toString SCALE_DESTINATION.height ++ " " ++
      toString SCALE_DESTINATION.width ++ " " ++ p) = false := by
  rw [sips_prefix_eq]
  unfold isScreencaptureCmd
  rw [String.data_append, List.take_append_of_le_length (by decide)]
  decide

theorem isScreencap_typeChunk (c : String) :
    isScreencaptureCmd (typeChunkCmd c) = false := by
  unfold typeChunkCmd
  rw [show ("cliclick w:" ++ toString TYPING_DELAY_MS ++ " t:")
      = "cliclick w:12 t:" from by decide]
  unfold isScreencaptureCmd
  rw [String.data_append, List.take_append_of_le_length (by decide)]
  decide

theorem screenshot_events_countP (self : ComputerTool) (env : Env) :
    ((self.screenshot env).1).countP isScreencaptureCmd = 1 := by
  unfold ComputerTool.screenshot
  cases hfc : env.fileContents (screenshotPath env) <;>
    cases h : self.scaling_enabled <;>
      simp [hfc, h, List.countP_cons, List.countP_nil, isScreencap_cap, isScreencap_sips]

theorem type_call_events (self : ComputerTool) (env : Env) (kwargs : Kwargs)
    (text : String) :
    (self.call env Action.type (some text) none kwargs).1
      = (chunks text TYPING_GROUP_SIZE).map typeChunkCmd ++ (self.screenshot env).1 := by
  rcases hscr : self.screenshot env with ⟨sevs, r⟩
  cases r <;> simp [ComputerTool.call, hscr]

/-- C5: a `type` action with a 120-character text splits it into exactly
3 chunks of lengths 50, 50 and 20 (`TYPING_GROUP_SIZE = 50`), sends each
chunk as one typing command carrying the 12 ms delay (`cliclick w:12 t:…`),
and captures exactly one screenshot, after all chunks. -/
theorem C5_type_chunks_120 (self : ComputerTool) (env : Env) (kwargs : Kwargs)
    (text : String) (h : text.length = 120) :
    (chunks text TYPING_GROUP_SIZE).map String.length = [50, 50, 20] ∧
    (self.call env Action.type (some text) none kwargs).1
      = (chunks text TYPING_GROUP_SIZE).map typeChunkCmd ++ (self.screenshot env).1 ∧
    ((chunks text TYPING_GROUP_SIZE).map typeChunkCmd).countP isScreencaptureCmd = 0 ∧
    ((self.screenshot env).1).countP isScreencaptureCmd = 1 := by
  have hd : text.data.length = 120 := h
  refine ⟨?_, type_call_events self env kwargs text, ?_, screenshot_events_countP self env⟩
  · rw [chunks, chunksList, hd]
    rw [show (120 + TYPING_GROUP_SIZE - 1) / TYPING_GROUP_SIZE = 3 from by decide]
    rw [show List.range' 0 3 TYPING_GROUP_SIZE = [0, 50, 100] from by decide]
    simp only [List.map_cons, List.map_nil]
    simp [List.length_take, List.length_drop, hd, TYPING_GROUP_SIZE]
  · rw [List.countP_eq_zero]
    intro a ha
    rcases List.mem_map.mp ha with ⟨c, _, rfl⟩
    simp [isScreencap_typeChunk]

/-- C6: when `type` sends multiple chunks, every chunk command is sent, in
order, whatever the per-chunk outputs and errors are (a failing chunk does
not abort the rest), and the returned result's output and error fields are
the in-order concatenations of the per-chunk stdout and stderr. -/
theorem C6_type_concat (self : ComputerTool) (env : Env) (kwargs : Kwargs)
    (text : String) :
    (self.call env Action.type (some text) none kwargs).1
      = (chunks text TYPING_GROUP_SIZE).map typeChunkCmd ++ (self.screenshot env).1 ∧
    (∀ img, env.fileContents (screenshotPath env) = some img →
      (self.call env Action.type (some text) none kwargs).2 =
        Outcome.ok
          ⟨some (String.join ((chunks text TYPING_GROUP_SIZE).map
              (fun c => (env.run (typeChunkCmd c)).1))),
           some (String.join ((chunks text TYPING_GROUP_SIZE).map
              (fun c => (env.run (typeChunkCmd c)).2))),
           some img⟩) := by
  refine ⟨type_call_events self env kwargs text, ?_⟩
  intro img himg
  simp only [ComputerTool.call, ComputerTool.screenshot, himg, List.map_map]
  rfl

/-- Round-half-to-even differs from its argument by at most one half. -/
theorem pyRound_sub_abs (q : ℚ) : |(pyRound q : ℚ) - q| ≤ 1/2 := by
  unfold pyRound
  have h0 : (Int.floor q : ℚ) ≤ q := Int.floor_le q
  have h1 : q < Int.floor q + 1 := Int.lt_floor_add_one q
  split_ifs with ha hb hc
  · rw [abs_le]; constructor <;> linarith
  · rw [abs_le]; push_cast; constructor <;> linarith
  · have he : q - Int.floor q = 1/2 := le_antisymm (not_lt.mp hb) (not_lt.mp ha)
    rw [abs_le]; constructor <;> linarith
  · have he : q - Int.floor q = 1/2 := le_antisymm (not_lt.mp hb) (not_lt.mp ha)
    rw [abs_le]; push_cast; constructor <;> linarith

/-- Scaling down by `v/w` with rounding and scaling back up moves any
integer by at most one, as long as `0 < v ≤ w`. -/
theorem pyRound_roundtrip (v w : ℕ) (hv : 0 < v) (hvw : v ≤ w) (x : ℤ) :
    |pyRound ((pyRound ((x : ℚ) / ((v : ℚ) / (w : ℚ))) : ℚ) * ((v : ℚ) / (w : ℚ))) - x| ≤ 1 := by
  have hw : 0 < w := lt_of_lt_of_le hv hvw
  set f : ℚ := (v : ℚ) / (w : ℚ) with hf
  have hf0 : 0 < f := by
    apply div_pos
    · exact_mod_cast hv
    · exact_mod_cast hw
  have hf1 : f ≤ 1 := by
    rw [hf, div_le_one (by exact_mod_cast hw)]
    exact_mod_cast hvw
  set q : ℚ := (x : ℚ) / f with hq
  set r : ℤ := pyRound q with hr
  have h1 : |(r : ℚ) - q| ≤ 1/2 := pyRound_sub_abs q
  have hqf : q * f = x := div_mul_cancel₀ _ (ne_of_gt hf0)
  have h2 : |(r : ℚ) * f - x| ≤ 1/2 := by
    calc |(r : ℚ) * f - x| = |((r : ℚ) - q) * f| := by rw [sub_mul, hqf]
    _ = |(r : ℚ) - q| * |f| := abs_mul _ _
    _ = |(r : ℚ) - q| * f := by rw [abs_of_pos hf0]
    _ ≤ (1/2) * 1 := mul_le_mul h1 hf1 (le_of_lt hf0) (by norm_num)
    _ = 1/2 := by norm_num
  have h3 : |(pyRound ((r : ℚ) * f) : ℚ) - (r : ℚ) * f| ≤ 1/2 := pyRound_sub_abs _
  have h4 : |(pyRound ((r : ℚ) * f) : ℚ) - x| ≤ 1 := by
    calc |(pyRound ((r : ℚ) * f) : ℚ) - x|
        = |((pyRound ((r : ℚ) * f) : ℚ) - (r : ℚ) * f) + ((r : ℚ) * f - x)| := by
          congr 1; ring
    _ ≤ |(pyRound ((r : ℚ) * f) : ℚ) - (r : ℚ) * f| + |(r : ℚ) * f - x| := abs_add _ _
    _ ≤ 1/2 + 1/2 := add_le_add h3 h2
    _ = 1 := by norm_num
  rw [show ((pyRound ((r : ℚ) * f) : ℚ) - (x : ℚ))
      = ((pyRound ((r : ℚ) * f) - x : ℤ) : ℚ) from by push_cast; ring] at h4
  rw [show (1 : ℚ) = ((1 : ℤ) : ℚ) from by norm_num] at h4
  rw [← Int.cast_abs] at h4
  exact_mod_cast h4

/-- C1 (amended): when the real resolution is at least the virtual
resolution (`1366 ≤ width`, `768 ≤ height`) and scaling is enabled,
scaling any `(x, y)` with `0 ≤ x ≤ 1366`, `0 ≤ y ≤ 768` from API space to
the real screen and back again yields a pair within ±1 pixel of `(x, y)`
in each component. -/
theorem C1_scale_roundtrip (w h : ℕ) (hw : 1366 ≤ w) (hh : 768 ≤ h)
    (x y : ℤ) (hx0 : 0 ≤ x) (hx : x ≤ 1366) (hy0 : 0 ≤ y) (hy : y ≤ 768) :
    ∃ rx ry vx vy,
      scale_coordinates ⟨w, h, true⟩ ScalingSource.API x y = Except.ok (rx, ry) ∧
      scale_coordinates ⟨w, h, true⟩ ScalingSource.COMPUTER rx ry = Except.ok (vx, vy) ∧
      |vx - x| ≤ 1 ∧ |vy - y| ≤ 1 := by
  refine ⟨pyRound ((x : ℚ) / (((1366 : ℕ) : ℚ) / (w : ℚ))),
          pyRound ((y : ℚ) / (((768 : ℕ) : ℚ) / (h : ℚ))),
          pyRound ((pyRound ((x : ℚ) / (((1366 : ℕ) : ℚ) / (w : ℚ))) : ℚ)
            * (((1366 : ℕ) : ℚ) / (w : ℚ))),
          pyRound ((pyRound ((y : ℚ) / (((768 : ℕ) : ℚ) / (h : ℚ))) : ℚ)
            * (((768 : ℕ) : ℚ) / (h : ℚ))),
          ?_, ?_, ?_, ?_⟩
  · simp only [scale_coordinates, SCALE_DESTINATION]
    rw [if_neg (by simp)]
    rw [if_neg (by push_cast; omega)]
  · simp only [scale_coordinates, SCALE_DESTINATION]
    rw [if_neg (by simp)]
  · exact pyRound_roundtrip 1366 w (by norm_num) hw x
  · exact pyRound_roundtrip 768 h (by norm_num) hh y

/-- Counterexample to C1 as stated: with a real screen narrower than the
virtual resolution (width 400), the point `(5, 0)` scales to `(1, 0)` and
back to `(3, 0)`, which is 2 pixels away from the original `x`. -/
theorem C1_counterexample :
    scale_coordinates ⟨400, 768, true⟩ ScalingSource.API 5 0 = Except.ok (1, 0) ∧
    scale_coordinates ⟨400, 768, true⟩ ScalingSource.COMPUTER 1 0 = Except.ok (3, 0) ∧
    ¬ (|(3 : ℤ) - 5| ≤ 1) := by
  have e1 : ((5 : ℤ) : ℚ) / (((1366 : ℕ) : ℚ) / ((400 : ℕ) : ℚ)) = 1000/683 := by
    push_cast; norm_num
  have e2 : pyRound ((1000 : ℚ)/683) = 1 := by
    unfold pyRound
    rw [show Int.floor ((1000 : ℚ)/683) = 1 from by rw [Int.floor_eq_iff]; norm_num]
    norm_num
  have e3 : ((0 : ℤ) : ℚ) / (((768 : ℕ) : ℚ) / ((768 : ℕ) : ℚ)) = 0 := by
    push_cast; norm_num
  have e4 : pyRound (0 : ℚ) = 0 := by
    unfold pyRound
    rw [show Int.floor (0 : ℚ) = 0 from by norm_num]
    norm_num
  have e5 : ((1 : ℤ) : ℚ) * (((1366 : ℕ) : ℚ) / ((400 : ℕ) : ℚ)) = 683/200 := by
    push_cast; norm_num
  have e6 : pyRound ((683 : ℚ)/200) = 3 := by
    unfold pyRound
    rw [show Int.floor ((683 : ℚ)/200) = 3 from by rw [Int.floor_eq_iff]; norm_num]
    norm_num
  have e7 : ((0 : ℤ) : ℚ) * (((768 : ℕ) : ℚ) / ((768 : ℕ) : ℚ)) = 0 := by
    push_cast; norm_num
  refine ⟨?_, ?_, by decide⟩
  · simp only [scale_coordinates, SCALE_DESTINATION]
    rw [if_neg (by simp), if_neg (by decide)]
    rw [e1, e2, e3, e4]
  · simp only [scale_coordinates, SCALE_DESTINATION]
    rw [if_neg (by simp)]
    rw [e5, e6, e7, e4]

/-- C3: with scaling enabled, scaling from API space rejects any `(x, y)`
with `x > 1366` or `y > 768` with a `ToolError`, and any pair with
`x ≤ 1366` and `y ≤ 768` is not rejected. -/
theorem C3_toReal_bounds (w h : ℕ) (x y : ℤ) :
    (((1366 : ℤ) < x ∨ (768 : ℤ) < y) →
      ∃ e, scale_coordinates ⟨w, h, true⟩ ScalingSource.API x y = Except.error e) ∧
    (x ≤ 1366 → y ≤ 768 →
      ∃ p, scale_coordinates ⟨w, h, true⟩ ScalingSource.API x y = Except.ok p) := by
  constructor
  · intro hcond
    simp only [scale_coordinates, SCALE_DESTINATION]
    rw [if_neg (by simp), if_pos (by push_cast; omega)]
    exact ⟨_, rfl⟩
  · intro hx hy
    simp only [scale_coordinates, SCALE_DESTINATION]
    rw [if_neg (by simp), if_neg (by push_cast; omega)]
    exact ⟨_, rfl⟩

/-- C8: whenever the OS capture facility does not produce the expected
output file, the screenshot operation raises a `ToolError` carrying the
captured stderr text instead of returning a result with a missing
image. -/
theorem C8_screenshot_file_missing (self : ComputerTool) (env : Env)
    (h : env.fileContents (screenshotPath env) = none) :
    (self.screenshot env).2 = Except.error
      ⟨"Failed to take screenshot: "
        ++ (env.run ("screencapture -x " ++ screenshotPath env)).2⟩ := by
  unfold ComputerTool.screenshot
  simp [h]

/-- Witness for C8 in an environment whose capture writes no file and
prints `boom` on stderr. -/
theorem C8_witness :
    (Env.fileContents ⟨fun _ => ("", "boom"), fun _ => none, "u"⟩
      (screenshotPath ⟨fun _ => ("", "boom"), fun _ => none, "u"⟩) = none) ∧
    ((⟨1366, 768, true⟩ : ComputerTool).screenshot
        ⟨fun _ => ("", "boom"), fun _ => none, "u"⟩).2 = Except.error
      ⟨"Failed to take screenshot: "
        ++ (Env.run ⟨fun _ => ("", "boom"), fun _ => none, "u"⟩
            ("screencapture -x " ++
              screenshotPath ⟨fun _ => ("", "boom"), fun _ => none, "u"⟩)).2⟩ :=
  ⟨rfl, C8_screenshot_file_missing ⟨1366, 768, true⟩ _ rfl⟩

/-- C2 (amended): for the actions whose branches validate their
parameters — `mouse_move` and `left_click_drag` (text forbidden), `key`
and `type` (coordinate forbidden), and the click/screenshot/
cursor-position group (text and coordinate forbidden) — supplying a
forbidden parameter raises a `ToolError` and no external process is
invoked.  The `scroll`, `hold_key` and `wait` branches do not check their
forbidden parameters (see the counterexample). -/
theorem C2_forbidden_param_amended (self : ComputerTool) (env : Env) (kwargs : Kwargs) :
    (∀ a ∈ [Action.mouse_move, Action.left_click_drag], ∀ t c,
      (self.call env a (some t) c kwargs).1 = [] ∧
      ((self.call env a (some t) c kwargs).2).isErr = true) ∧
    (∀ a ∈ [Action.key, Action.type], ∀ t c,
      (self.call env a t (some c) kwargs).1 = [] ∧
      ((self.call env a t (some c) kwargs).2).isErr = true) ∧
    (∀ a ∈ [Action.left_click, Action.right_click, Action.double_click,
            Action.triple_click, Action.middle_click, Action.left_mouse_down,
            Action.left_mouse_up, Action.screenshot, Action.cursor_position],
      ∀ t c, ¬ (t = none ∧ c = none) →
        (self.call env a t c kwargs).1 = [] ∧
        ((self.call env a t c kwargs).2).isErr = true) := by
  refine ⟨?_, ?_, ?_⟩
  · intro a ha t c
    fin_cases ha <;> rcases c with _ | c <;>
      simp [ComputerTool.call, Outcome.isErr]
  · intro a ha t c
    fin_cases ha <;> rcases t with _ | t <;>
      simp [ComputerTool.call, Outcome.isErr]
  · intro a ha t c hnc
    fin_cases ha <;> rcases t with _ | t <;> rcases c with _ | c <;>
      simp_all [ComputerTool.call, Outcome.isErr]

/-- Witness for the amended C2: `mouse_move` with a text argument is
rejected without running anything. -/
theorem C2_witness :
    ((⟨1366, 768, true⟩ : ComputerTool).call
        ⟨fun _ => ("", ""), fun _ => some "IMG", "u"⟩ Action.mouse_move
        (some "x") none ⟨none, none, none⟩).1 = [] ∧
    (((⟨1366, 768, true⟩ : ComputerTool).call
        ⟨fun _ => ("", ""), fun _ => some "IMG", "u"⟩ Action.mouse_move
        (some "x") none ⟨none, none, none⟩).2).isErr = true :=
  (C2_forbidden_param_amended ⟨1366, 768, true⟩
    ⟨fun _ => ("", ""), fun _ => some "IMG", "u"⟩ ⟨none, none, none⟩).1
    Action.mouse_move (by decide) "x" none

/-- Counterexample to C2 as stated: `wait` with the forbidden `text`
parameter supplied does not raise — it runs to completion and invokes
external processes (the screenshot). -/
theorem C2_counterexample :
    (((⟨1366, 768, true⟩ : ComputerTool).call
        ⟨fun _ => ("", ""), fun _ => some "IMG", "u"⟩ Action.wait
        (some "x") none ⟨none, none, none⟩).2).isErr = false ∧
    ((⟨1366, 768, true⟩ : ComputerTool).call
        ⟨fun _ => ("", ""), fun _ => some "IMG", "u"⟩ Action.wait
        (some "x") none ⟨none, none, none⟩).1 ≠ [] := by
  constructor <;> decide

/-- C4 (code bug): a coordinate that is a genuine 2-element tuple of
non-negative integers — the very type the parameter is annotated with —
is rejected by the `isinstance(coordinate, list)` check, with an error
message claiming it "must be a tuple of length 2". -/
theorem C4_tuple_coordinate_rejected :
    (⟨1366, 768, true⟩ : ComputerTool).call
      ⟨fun _ => ("", ""), fun _ => some "IMG", "u"⟩ Action.mouse_move none
      (some (PyCoord.tuple [PyObj.int 500, PyObj.int 500])) ⟨none, none, none⟩
    = ([], Outcome.err ⟨"(500, 500) must be a tuple of length 2"⟩) := by decide

/-- C9: a scroll request whose `scroll_direction` is none of up, down,
left, right is not rejected: the fallback multiplier −1 negates
`scroll_amount` and the request is executed as a horizontal
shift-bracketed scroll command. -/
theorem C9_scroll_unknown_direction (self : ComputerTool) (env : Env)
    (x0 y0 : ℤ) (hx0 : 0 ≤ x0) (hy0 : 0 ≤ y0)
    (sx sy : ℤ)
    (hscale : scale_coordinates self ScalingSource.API x0 y0 = Except.ok (sx, sy))
    (d : String) (hd : d ∉ (["up", "down", "left", "right"] : List String))
    (amt : ℤ) :
    (self.call env Action.scroll none
        (some (PyCoord.list [PyObj.int x0, PyObj.int y0])) ⟨some d, some amt, none⟩).1
      = ("cliclick m:" ++ toString sx ++ "," ++ toString sy ++
         " kd:shift w:" ++ toString (amt * (-1)) ++ " ku:shift")
        :: (self.screenshot env).1 ∧
    (∀ img, env.fileContents (screenshotPath env) = some img →
      (self.call env Action.scroll none
          (some (PyCoord.list [PyObj.int x0, PyObj.int y0])) ⟨some d, some amt, none⟩).2
        = Outcome.ok
            ⟨some (env.run ("cliclick m:" ++ toString sx ++ "," ++ toString sy ++
                " kd:shift w:" ++ toString (amt * (-1)) ++ " ku:shift")).1,
             some (env.run ("cliclick m:" ++ toString sx ++ "," ++ toString sy ++
                " kd:shift w:" ++ toString (amt * (-1)) ++ " ku:shift")).2,
             some img⟩) := by
  simp only [List.mem_cons, List.not_mem_nil, or_false, not_or] at hd
  obtain ⟨hdu, hdd, hdl, hdr⟩ := hd
  constructor
  · rcases hscr : self.screenshot env with ⟨sevs, r⟩
    cases r <;>
      simp [ComputerTool.call, ComputerTool.shell, shellOut, PyCoord.isList,
        PyCoord.elems, PyObj.isNonNegInt, PyObj.asInt, hx0, hy0, hscale,
        hdu, hdd, hdl, hdr, hscr]
  · intro img himg
    simp [ComputerTool.call, ComputerTool.shell, ComputerTool.screenshot, shellOut,
      PyCoord.isList, PyCoord.elems, PyObj.isNonNegInt, PyObj.asInt,
      hx0, hy0, hscale, hdu, hdd, hdl, hdr, himg]

/-- The last element (with default) of a nonempty list is a member. -/
theorem getLastD_mem_of_ne_nil {α : Type} (l : List α) (d : α) (h : l ≠ []) :
    l.getLastD d ∈ l := by
  induction l generalizing d with
  | nil => simp at h
  | cons a t ih =>
    rw [List.getLastD_cons]
    cases t with
    | nil => simp [List.getLastD]
    | cons b u => exact List.mem_cons_of_mem a (ih a (List.cons_ne_nil b u))

/-- Mapping recognized modifier tokens through the conversion loop of the
key branch keeps a nonempty list nonempty. -/
theorem filterMap_modMap_ne_nil (l : List String)
    (h : ∀ p ∈ l, p ∈ (["cmd", "command", "ctrl", "alt", "shift"] : List String))
    (hne : l ≠ []) : l.filterMap modMap ≠ [] := by
  rcases l with _ | ⟨a, as⟩
  · exact absurd rfl hne
  · have ha := h a (List.mem_cons_self a as)
    have hex : ∃ b, modMap a = some b := by
      fin_cases ha <;>
        first
        | exact ⟨"cmd", by decide⟩
        | exact ⟨"ctrl", by decide⟩
        | exact ⟨"alt", by decide⟩
        | exact ⟨"shift", by decide⟩
    obtain ⟨b, hb⟩ := hex
    rw [List.filterMap_cons, hb]
    exact List.cons_ne_nil _ _

/-- No modifier token names a key of `special_keys_map`. -/
theorem lookup_modifier_none (m : String)
    (h : m ∈ (["cmd", "command", "ctrl", "alt", "shift"] : List String)) :
    special_keys_map.lookup (pyLower m) = none := by
  fin_cases h <;> decide

/-- C7 (amended): for a `key` text that is a `+`-separated combination
consisting only of modifier tokens, the dispatcher still issues a modifier
hold (`kd:`) and release (`ku:`) of the leading tokens bracketing the key
action — but the last token is treated as the target key and typed as
literal text (`t:token`), rather than the key action being empty. -/
theorem C7_key_modifier_only_amended (self : ComputerTool) (env : Env)
    (kwargs : Kwargs) (text : String) (parts : List String)
    (hplus : pyContains text '+' = true)
    (hsplit : pySplit '+' text = parts)
    (hlead : parts.dropLast ≠ [])
    (hmods : ∀ p ∈ parts,
      pyStrip p ∈ (["cmd", "command", "ctrl", "alt", "shift"] : List String)) :
    keyCmd text = "cliclick " ++ "kd:" ++
        String.intercalate "," ((parts.dropLast.map pyStrip).filterMap modMap) ++
        " " ++ ("t:" ++ pyStrip (parts.getLastD "")) ++
        " ku:" ++ String.intercalate "," ((parts.dropLast.map pyStrip).filterMap modMap) ∧
    (self.call env Action.key (some text) none kwargs).1
      = keyCmd text :: (self.screenshot env).1 := by
  have hparts : parts ≠ [] := by
    intro h; rw [h] at hlead; exact hlead rfl
  have htgt : pyStrip (parts.getLastD "")
      ∈ (["cmd", "command", "ctrl", "alt", "shift"] : List String) :=
    hmods _ (getLastD_mem_of_ne_nil parts "" hparts)
  have hlk : special_keys_map.lookup (pyLower (pyStrip (parts.getLastD ""))) = none :=
    lookup_modifier_none _ htgt
  have hfm : (parts.dropLast.map pyStrip).filterMap modMap ≠ [] := by
    apply filterMap_modMap_ne_nil
    · intro p hp
      rcases List.mem_map.mp hp with ⟨q, hq, rfl⟩
      exact hmods q (List.dropLast_subset parts hq)
    · intro h
      exact hlead (List.map_eq_nil_iff.mp h)
  constructor
  · simp only [keyCmd, hplus, if_true, hsplit, hlk]
    rw [if_pos hfm]
  · rcases hscr : self.screenshot env with ⟨sevs, r⟩
    cases r <;> simp [ComputerTool.call, ComputerTool.shell, hscr]

/-- Witness for C5 at a concrete 120-character text. -/
theorem C5_witness :
    ("aaaaaaaaaaaaaaaaaaaaaaaaaaaaaaaaaaaaaaaaaaaaaaaaaaaaaaaaaaaaaaaaaaaaaaaaaaaaaaaaaaaaaaaaaaaaaaaaaaaaaaaaaaaaaaaaaaaaaaaa" : String).length = 120 ∧
    ((chunks "aaaaaaaaaaaaaaaaaaaaaaaaaaaaaaaaaaaaaaaaaaaaaaaaaaaaaaaaaaaaaaaaaaaaaaaaaaaaaaaaaaaaaaaaaaaaaaaaaaaaaaaaaaaaaaaaaaaaaaaa" TYPING_GROUP_SIZE).map String.length = [50, 50, 20] ∧
     ((⟨1366, 768, true⟩ : ComputerTool).call
        ⟨fun _ => ("", ""), fun _ => some "IMG", "u"⟩ Action.type
        (some "aaaaaaaaaaaaaaaaaaaaaaaaaaaaaaaaaaaaaaaaaaaaaaaaaaaaaaaaaaaaaaaaaaaaaaaaaaaaaaaaaaaaaaaaaaaaaaaaaaaaaaaaaaaaaaaaaaaaaaaa") none ⟨none, none, none⟩).1
       = (chunks "aaaaaaaaaaaaaaaaaaaaaaaaaaaaaaaaaaaaaaaaaaaaaaaaaaaaaaaaaaaaaaaaaaaaaaaaaaaaaaaaaaaaaaaaaaaaaaaaaaaaaaaaaaaaaaaaaaaaaaaa" TYPING_GROUP_SIZE).map typeChunkCmd
         ++ ((⟨1366, 768, true⟩ : ComputerTool).screenshot
              ⟨fun _ => ("", ""), fun _ => some "IMG", "u"⟩).1 ∧
     ((chunks "aaaaaaaaaaaaaaaaaaaaaaaaaaaaaaaaaaaaaaaaaaaaaaaaaaaaaaaaaaaaaaaaaaaaaaaaaaaaaaaaaaaaaaaaaaaaaaaaaaaaaaaaaaaaaaaaaaaaaaaa" TYPING_GROUP_SIZE).map typeChunkCmd).countP isScreencaptureCmd = 0 ∧
     (((⟨1366, 768, true⟩ : ComputerTool).screenshot
        ⟨fun _ => ("", ""), fun _ => some "IMG", "u"⟩).1).countP isScreencaptureCmd = 1) :=
  ⟨rfl, C5_type_chunks_120 ⟨1366, 768, true⟩
    ⟨fun _ => ("", ""), fun _ => some "IMG", "u"⟩ ⟨none, none, none⟩ "aaaaaaaaaaaaaaaaaaaaaaaaaaaaaaaaaaaaaaaaaaaaaaaaaaaaaaaaaaaaaaaaaaaaaaaaaaaaaaaaaaaaaaaaaaaaaaaaaaaaaaaaaaaaaaaaaaaaaaaa" rfl⟩

/-- Witness for C6 at a concrete text and environment. -/
theorem C6_witness :
    Env.fileContents ⟨fun c => (c, "E"), fun _ => some "IMG", "u"⟩
      (screenshotPath ⟨fun c => (c, "E"), fun _ => some "IMG", "u"⟩) = some "IMG" ∧
    ((⟨1366, 768, true⟩ : ComputerTool).call
        ⟨fun c => (c, "E"), fun _ => some "IMG", "u"⟩ Action.type
        (some "ab") none ⟨none, none, none⟩).2 =
      Outcome.ok
        ⟨some (String.join ((chunks "ab" TYPING_GROUP_SIZE).map
            (fun c => (Env.run ⟨fun c => (c, "E"), fun _ => some "IMG", "u"⟩
              (typeChunkCmd c)).1))),
         some (String.join ((chunks "ab" TYPING_GROUP_SIZE).map
            (fun c => (Env.run ⟨fun c => (c, "E"), fun _ => some "IMG", "u"⟩
              (typeChunkCmd c)).2))),
         some "IMG"⟩ :=
  ⟨rfl, (C6_type_concat ⟨1366, 768, true⟩ ⟨fun c => (c, "E"), fun _ => some "IMG", "u"⟩
    ⟨none, none, none⟩ "ab").2 "IMG" rfl⟩

/-- Counterexample to C7 as stated: for the modifier-only combination
`cmd+shift` the issued command is `cliclick kd:cmd t:shift ku:cmd` — the
bracketed key action literally types `shift`; it is not empty. -/
theorem C7_counterexample :
    keyCmd "cmd+shift" = "cliclick kd:cmd t:shift ku:cmd" ∧
    ((⟨1366, 768, true⟩ : ComputerTool).call
        ⟨fun _ => ("", ""), fun _ => some "IMG", "u"⟩ Action.key
        (some "cmd+shift") none ⟨none, none, none⟩).1
      = "cliclick kd:cmd t:shift ku:cmd"
        :: ((⟨1366, 768, true⟩ : ComputerTool).screenshot
             ⟨fun _ => ("", ""), fun _ => some "IMG", "u"⟩).1 := by
  constructor <;> decide

/-- Witness for the amended C7 at the concrete text `ctrl+cmd`. -/
theorem C7_witness :
    pyContains "ctrl+cmd" '+' = true ∧
    pySplit '+' "ctrl+cmd" = ["ctrl", "cmd"] ∧
    (["ctrl", "cmd"] : List String).dropLast ≠ [] ∧
    keyCmd "ctrl+cmd" = "cliclick " ++ "kd:" ++
      String.intercalate "," (((["ctrl", "cmd"] : List String).dropLast.map pyStrip).filterMap modMap) ++
      " " ++ ("t:" ++ pyStrip ((["ctrl", "cmd"] : List String).getLastD "")) ++
      " ku:" ++ String.intercalate "," (((["ctrl", "cmd"] : List String).dropLast.map pyStrip).filterMap modMap) :=
  ⟨by decide, by decide, by decide,
   (C7_key_modifier_only_amended ⟨1366, 768, true⟩
     ⟨fun _ => ("", ""), fun _ => some "IMG", "u"⟩ ⟨none, none, none⟩
     "ctrl+cmd" ["ctrl", "cmd"] (by decide) (by decide) (by decide) (by decide)).1⟩

/-- Witness for C9 with direction `diagonal`, amount 5, coordinate
`[0, 0]`. -/
theorem C9_witness :
    scale_coordinates ⟨1366, 768, true⟩ ScalingSource.API 0 0 = Except.ok (0, 0) ∧
    "diagonal" ∉ (["up", "down", "left", "right"] : List String) ∧
    ((⟨1366, 768, true⟩ : ComputerTool).call
        ⟨fun _ => ("", ""), fun _ => some "IMG", "u"⟩ Action.scroll none
        (some (PyCoord.list [PyObj.int 0, PyObj.int 0]))
        ⟨some "diagonal", some 5, none⟩).1
      = ("cliclick m:" ++ toString (0 : ℤ) ++ "," ++ toString (0 : ℤ) ++
         " kd:shift w:" ++ toString ((5 : ℤ) * (-1)) ++ " ku:shift")
        :: ((⟨1366, 768, true⟩ : ComputerTool).screenshot
             ⟨fun _ => ("", ""), fun _ => some "IMG", "u"⟩).1 := by
  have hsc : scale_coordinates ⟨1366, 768, true⟩ ScalingSource.API 0 0
      = Except.ok (0, 0) := by
    have hz : pyRound (0 : ℚ) = 0 := by
      unfold pyRound
      rw [show Int.floor (0 : ℚ) = 0 from by norm_num]
      norm_num
    simp only [scale_coordinates, SCALE_DESTINATION]
    rw [if_neg (by simp), if_neg (by decide)]
    rw [show ((0 : ℤ) : ℚ) / (((1366 : ℕ) : ℚ) / ((1366 : ℕ) : ℚ)) = 0 from by norm_num]
    rw [show ((0 : ℤ) : ℚ) / (((768 : ℕ) : ℚ) / ((768 : ℕ) : ℚ)) = 0 from by norm_num]
    rw [hz]
  refine ⟨hsc, by decide, ?_⟩
  exact (C9_scroll_unknown_direction ⟨1366, 768, true⟩
    ⟨fun _ => ("", ""), fun _ => some "IMG", "u"⟩ 0 0 (by decide) (by decide)
    0 0 hsc "diagonal" (by decide) 5).1

/-- Witness for the amended C1 at width 1920, height 1080, `(x, y) =
(100, 100)`. -/
theorem C1_witness :
    ((1366 : ℕ) ≤ 1920 ∧ (768 : ℕ) ≤ 1080 ∧
     (0 : ℤ) ≤ 100 ∧ (100 : ℤ) ≤ 1366 ∧ (0 : ℤ) ≤ 100 ∧ (100 : ℤ) ≤ 768) ∧
    (∃ rx ry vx vy,
      scale_coordinates ⟨1920, 1080, true⟩ ScalingSource.API 100 100 = Except.ok (rx, ry) ∧
      scale_coordinates ⟨1920, 1080, true⟩ ScalingSource.COMPUTER rx ry = Except.ok (vx, vy) ∧
      |vx - 100| ≤ 1 ∧ |vy - 100| ≤ 1) :=
  ⟨⟨by decide, by decide, by decide, by decide, by decide, by decide⟩,
   C1_scale_roundtrip 1920 1080 (by decide) (by decide) 100 100
     (by decide) (by decide) (by decide) (by decide)⟩

/-- Witness for C3 at `(2000, 0)` (rejected) and `(100, 100)`
(accepted), real resolution 1920×1080. -/
theorem C3_witness :
    (((1366 : ℤ) < 2000 ∨ (768 : ℤ) < 0) ∧
      ∃ e, scale_coordinates ⟨1920, 1080, true⟩ ScalingSource.API 2000 0
        = Except.error e) ∧
    (((100 : ℤ) ≤ 1366) ∧ ((100 : ℤ) ≤ 768) ∧
      ∃ p, scale_coordinates ⟨1920, 1080, true⟩ ScalingSource.API 100 100
        = Except.ok p) :=
  ⟨⟨by decide, (C3_toReal_bounds 1920 1080 2000 0).1 (by decide)⟩,
   ⟨by decide, by decide, (C3_toReal_bounds 1920 1080 100 100).2 (by decide) (by decide)⟩⟩

end MacComputerUse
